import Mathlib

/-!
# Travel Booking System — verification of the inventory/booking layer

Shallow embedding of the inventory-management code of the Travel-Booking-System
repository, together with theorems settling the specification claims about it.

Conventions used throughout:
* Python `Decimal` values (fares, prices, balances) are modelled as `ℚ`
  (all the arithmetic the code performs on them — `+`, `-`, `*` by small
  constants, `/ 100` — is exact in `Decimal`'s 28-digit context for the
  magnitudes involved, and `ℚ` captures it exactly);
* dates are modelled as integers (day numbers) and datetimes as rationals
  (hour offsets on a linear timeline), since the code only ever compares
  them and takes differences;
* Django querysets that filter rows of one table are modelled as `List.filter`
  over a list of records, and `queryset.update(...)` as a `List.map` that
  rewrites exactly the rows matched by the same predicate (Django re-evaluates
  the filter at `UPDATE` time, and all of this sits inside one
  `transaction.atomic` block);
* Python exceptions are modelled with `Except String`.
-/

namespace TravelBooking

/-! ## Buses: `apps/buses/seat_manager.py`

`BusSeat` rows carry `seat_number`, `is_booked`, `is_blocked` and the derived
`final_fare` (`models.py` line 303: `bus.final_fare + fare_adjustment`; we keep
the resulting rational directly on the record). The table has
`unique_together = ['bus', 'seat_number']`, so within one bus the seat numbers
are pairwise distinct; theorems that need this carry it as a `Nodup`
hypothesis. -/

structure BusSeat where
  seat_number : String
  is_booked : Bool
  is_blocked : Bool
  final_fare : ℚ
deriving Repr, DecidableEq

/-- The state `SeatManager.book_seats` reads and writes: whether
`Bus.objects.get(id=bus_id)` finds the bus, today's date
(`timezone.now().date()`), and the bus's `BusSeat` rows. -/
structure BusInventory where
  busExists : Bool
  today : ℤ
  seats : List BusSeat
deriving Repr, DecidableEq

/-- The 4-tuple returned by `SeatManager.book_seats`:
`(success, booked_seats, total_amount, error_message)`. -/
structure BookSeatsResult where
  success : Bool
  booked_seats : List String
  total_amount : ℚ
  error_message : String
deriving Repr, DecidableEq

/-- The filter used both for the availability queryset and for the
`seats.update(is_booked=True)` write in `book_seats`:
`seat_number__in=seat_numbers, is_booked=False, is_blocked=False`. -/
def busSeatSelectable (seat_numbers : List String) (s : BusSeat) : Bool :=
  seat_numbers.contains s.seat_number && !s.is_booked && !s.is_blocked

/-- Row-level effect of `seats.update(is_booked=True)` in `book_seats`:
Django re-applies the queryset's filter and sets the flag on matching rows. -/
def busBookUpdate (seat_numbers : List String) (s : BusSeat) : BusSeat :=
  if busSeatSelectable seat_numbers s then { s with is_booked := true } else s

/-- Row-level effect of `seats.update(is_booked=False)` in `release_seats`,
whose queryset filters `seat_number__in=seat_numbers, is_booked=True`. -/
def busReleaseUpdate (seat_numbers : List String) (s : BusSeat) : BusSeat :=
  if seat_numbers.contains s.seat_number && s.is_booked then
    { s with is_booked := false }
  else s

/-- `SeatManager.book_seats` (seat_manager.py lines 18–69), returning the
result tuple together with the post-state of the inventory. -/
def book_seats (st : BusInventory) (seat_numbers : List String)
    (travel_date : ℤ) : BookSeatsResult × BusInventory :=
  if st.busExists = false then
    (⟨false, [], 0, "Bus not found"⟩, st)
  else if travel_date < st.today then
    (⟨false, [], 0, "Travel date cannot be in the past"⟩, st)
  else
    let seats := st.seats.filter (busSeatSelectable seat_numbers)
    let available_seat_numbers := seats.map BusSeat.seat_number
    let unavailable_seats :=
      seat_numbers.filter (fun n => !available_seat_numbers.contains n)
    if unavailable_seats ≠ [] then
      (⟨false, [], 0, "Seats are not available"⟩, st)
    else
      let total_amount := seats.foldl (fun acc s => acc + s.final_fare) 0
      let seats' := st.seats.map (busBookUpdate seat_numbers)
      (⟨true, seat_numbers, total_amount, ""⟩, { st with seats := seats' })

/-- `SeatManager.release_seats` (seat_manager.py lines 71–90): unmark
`is_booked` on the rows matching
`seat_number__in=seat_numbers, is_booked=True`; always returns `(True, "")`. -/
def release_seats (st : BusInventory) (seat_numbers : List String) :
    (Bool × String) × BusInventory :=
  ((true, ""),
   { st with seats := st.seats.map (busReleaseUpdate seat_numbers) })

/-! ### Helper lemmas about `book_seats` -/

/-- Within one bus, `unique_together = ['bus', 'seat_number']` makes seat
numbers injective on the rows. -/
lemma seat_eq_of_nodup {seats : List BusSeat}
    (hnd : (seats.map BusSeat.seat_number).Nodup)
    {s t : BusSeat} (hs : s ∈ seats) (ht : t ∈ seats)
    (h : s.seat_number = t.seat_number) : s = t :=
  List.inj_on_of_nodup_map hnd hs ht h

/-- Unfold Python's truthiness test on `set(seat_numbers) - set(available)`:
a negated `contains` holds exactly on non-members. -/
lemma mem_of_not_bang_contains {l : List String} {a : String}
    (h : ¬((!l.contains a) = true)) : a ∈ l := by
  rcases Bool.eq_false_or_eq_true (l.contains a) with hc | hc
  · exact List.elem_iff.mp hc
  · exact absurd (by rw [hc]; rfl) h

lemma bang_contains_eq_true_of_not_mem {l : List String} {a : String}
    (h : a ∉ l) : (!l.contains a) = true := by
  rcases Bool.eq_false_or_eq_true (l.contains a) with hc | hc
  · exact absurd (List.elem_iff.mp hc) h
  · rw [hc]; rfl

/-- Unfolding of `book_seats` once the bus is found and the travel date is
valid: only the availability test remains. -/
lemma book_seats_main (st : BusInventory) (req : List String) (d : ℤ)
    (hb : st.busExists = true) (hdt : ¬ d < st.today) :
    book_seats st req d =
      (if req.filter (fun n =>
          !(((st.seats.filter (busSeatSelectable req)).map
              BusSeat.seat_number).contains n)) ≠ [] then
        (⟨false, [], 0, "Seats are not available"⟩, st)
      else
        (⟨true, req,
          (st.seats.filter (busSeatSelectable req)).foldl
            (fun acc s => acc + s.final_fare) 0, ""⟩,
         { st with seats := st.seats.map (busBookUpdate req) })) := by
  unfold book_seats
  rw [hb, if_neg (by simp), if_neg hdt]

/-- `book_seats` succeeds exactly when the bus exists, the travel date is not
in the past, and no requested seat number is left unmatched by the
availability queryset. -/
lemma book_seats_success_iff (st : BusInventory) (req : List String) (d : ℤ) :
    (book_seats st req d).1.success = true ↔
      st.busExists = true ∧ ¬(d < st.today) ∧
      req.filter (fun n =>
        !(((st.seats.filter (busSeatSelectable req)).map
            BusSeat.seat_number).contains n)) = [] := by
  cases hb : st.busExists
  · unfold book_seats
    rw [hb, if_pos rfl]
    simp
  · by_cases hdt : d < st.today
    · unfold book_seats
      rw [hb, if_neg (by simp), if_pos hdt]
      simp [hdt]
    · rw [book_seats_main st req d hb hdt]
      by_cases hun : req.filter (fun n =>
          !(((st.seats.filter (busSeatSelectable req)).map
              BusSeat.seat_number).contains n)) = []
      · rw [if_neg (not_not_intro hun)]
        exact iff_of_true rfl ⟨rfl, hdt, hun⟩
      · rw [if_pos hun]
        exact iff_of_false (by simp) (fun h => hun h.2.2)

/-- On success, the post-state marks exactly the selectable requested rows as
booked and everything else (including the other inventory fields) is kept. -/
lemma book_seats_success_state {st : BusInventory} {req : List String} {d : ℤ}
    (h : (book_seats st req d).1.success = true) :
    (book_seats st req d).2 =
      { st with seats := st.seats.map (busBookUpdate req) } ∧
    (book_seats st req d).1.booked_seats = req := by
  rcases (book_seats_success_iff st req d).mp h with ⟨hb, hdt, hun⟩
  rw [book_seats_main st req d hb hdt, if_neg (not_not_intro hun)]
  exact ⟨rfl, rfl⟩

/-- On success every row whose seat number was requested was free and
unblocked before the call (uniqueness of seat numbers assumed). -/
lemma book_seats_success_flags {st : BusInventory} {req : List String} {d : ℤ}
    (hnd : (st.seats.map BusSeat.seat_number).Nodup)
    (h : (book_seats st req d).1.success = true) :
    ∀ s ∈ st.seats, s.seat_number ∈ req →
      s.is_booked = false ∧ s.is_blocked = false := by
  rcases (book_seats_success_iff st req d).mp h with ⟨_, _, hun⟩
  intro s hs hmem
  have hcon := List.filter_eq_nil_iff.mp hun s.seat_number hmem
  have hmem2 : s.seat_number ∈
      (st.seats.filter (busSeatSelectable req)).map BusSeat.seat_number :=
    mem_of_not_bang_contains hcon
  obtain ⟨t, htf, hteq⟩ := List.mem_map.mp hmem2
  obtain ⟨htmem, htp⟩ := List.mem_filter.mp htf
  have het : t = s := seat_eq_of_nodup hnd htmem hs hteq
  subst het
  simp only [busSeatSelectable, Bool.and_eq_true, Bool.not_eq_true'] at htp
  exact ⟨htp.1.2, htp.2⟩

/-- Core of the no-double-booking property: a request containing the number of
a row that is already booked or blocked fails and leaves the state intact. -/
lemma book_seats_fails_of_flagged {st : BusInventory} {req : List String}
    {d : ℤ} (hnd : (st.seats.map BusSeat.seat_number).Nodup) {s : BusSeat}
    (hs : s ∈ st.seats) (hmem : s.seat_number ∈ req)
    (hflag : s.is_booked = true ∨ s.is_blocked = true) :
    (book_seats st req d).1.success = false ∧
    (book_seats st req d).1.booked_seats = [] ∧
    (book_seats st req d).1.total_amount = 0 ∧
    (book_seats st req d).2 = st := by
  cases hb : st.busExists
  · unfold book_seats
    rw [hb, if_pos rfl]
    exact ⟨rfl, rfl, rfl, rfl⟩
  · by_cases hdt : d < st.today
    · unfold book_seats
      rw [hb, if_neg (by simp), if_pos hdt]
      exact ⟨rfl, rfl, rfl, rfl⟩
    · have hnotmem : s.seat_number ∉
          (st.seats.filter (busSeatSelectable req)).map BusSeat.seat_number := by
        intro hmm
        obtain ⟨t, htf, hteq⟩ := List.mem_map.mp hmm
        obtain ⟨htmem, htp⟩ := List.mem_filter.mp htf
        have het : t = s := seat_eq_of_nodup hnd htmem hs hteq
        subst het
        simp only [busSeatSelectable, Bool.and_eq_true,
          Bool.not_eq_true'] at htp
        rcases hflag with hfl | hfl
        · exact absurd htp.1.2 (by simp [hfl])
        · exact absurd htp.2 (by simp [hfl])
      have hkey : s.seat_number ∈ req.filter (fun n =>
          !(((st.seats.filter (busSeatSelectable req)).map
              BusSeat.seat_number).contains n)) := by
        rw [List.mem_filter]
        exact ⟨hmem, bang_contains_eq_true_of_not_mem hnotmem⟩
      have hne : req.filter (fun n =>
          !(((st.seats.filter (busSeatSelectable req)).map
              BusSeat.seat_number).contains n)) ≠ [] := by
        intro h0
        rw [h0] at hkey
        exact absurd hkey (List.not_mem_nil _)
      rw [book_seats_main st req d hb hdt, if_pos hne]
      exact ⟨rfl, rfl, rfl, rfl⟩

/-! ### Claim theorems for the bus seat manager -/

/-- C1: for every inventory state (with the table's per-bus uniqueness of seat
numbers) and every seat `s` whose `is_booked` or `is_blocked` flag is true,
any `book_seats` call whose `seat_numbers` list contains `s` returns failure
(`success = False`, empty booked list, amount 0) and marks no seat booked;
hence two booking requests for the same seat number cannot both succeed. -/
theorem bus_no_double_booking :
    (∀ (st : BusInventory) (req : List String) (d : ℤ) (s : BusSeat),
      (st.seats.map BusSeat.seat_number).Nodup → s ∈ st.seats →
      s.seat_number ∈ req → (s.is_booked = true ∨ s.is_blocked = true) →
      (book_seats st req d).1.success = false ∧
      (book_seats st req d).1.booked_seats = [] ∧
      (book_seats st req d).1.total_amount = 0 ∧
      (book_seats st req d).2 = st) ∧
    (∀ (st : BusInventory) (req₁ req₂ : List String) (d₁ d₂ : ℤ) (n : String),
      (st.seats.map BusSeat.seat_number).Nodup → n ∈ req₁ → n ∈ req₂ →
      (book_seats st req₁ d₁).1.success = true →
      (book_seats (book_seats st req₁ d₁).2 req₂ d₂).1.success = false) := by
  constructor
  · intro st req d s hnd hs hmem hflag
    exact book_seats_fails_of_flagged hnd hs hmem hflag
  · intro st req₁ req₂ d₁ d₂ n hnd hn₁ hn₂ hsucc
    rcases (book_seats_success_iff st req₁ d₁).mp hsucc with ⟨_, _, hun⟩
    have hcon := List.filter_eq_nil_iff.mp hun n hn₁
    have hmem2 : n ∈
        (st.seats.filter (busSeatSelectable req₁)).map BusSeat.seat_number :=
      mem_of_not_bang_contains hcon
    obtain ⟨t, htf, hteq⟩ := List.mem_map.mp hmem2
    obtain ⟨htmem, htp⟩ := List.mem_filter.mp htf
    have hstate := (book_seats_success_state hsucc).1
    set st' := (book_seats st req₁ d₁).2 with hst'
    have hseats' : st'.seats = st.seats.map (busBookUpdate req₁) := by
      rw [hstate]
    have hnd' : (st'.seats.map BusSeat.seat_number).Nodup := by
      rw [hseats', List.map_map]
      have hcongr : ∀ s ∈ st.seats,
          (BusSeat.seat_number ∘ busBookUpdate req₁) s = s.seat_number := by
        intro s _
        by_cases hsel : busSeatSelectable req₁ s = true
        · simp [busBookUpdate, hsel]
        · simp [busBookUpdate, hsel]
      rw [List.map_congr_left hcongr]
      exact hnd
    have hbooked : ({ t with is_booked := true } : BusSeat) ∈ st'.seats := by
      rw [hseats']
      refine List.mem_map.mpr ⟨t, htmem, ?_⟩
      unfold busBookUpdate
      rw [if_pos htp]
    have hmemn : ({ t with is_booked := true } : BusSeat).seat_number ∈ req₂ := by
      show t.seat_number ∈ req₂
      rw [hteq]
      exact hn₂
    have := @book_seats_fails_of_flagged st' req₂ d₂ hnd'
      ({ t with is_booked := true }) hbooked hmemn (Or.inl rfl)
    exact this.1

/-- `bus_no_double_booking` applied at a one-seat bus whose seat "A1" is
already booked: the request for "A1" fails and the inventory is untouched. -/
theorem bus_no_double_booking_witness :
    (book_seats ⟨true, 0, [⟨"A1", true, false, 10⟩]⟩ ["A1"] 0).1.success
      = false ∧
    (book_seats ⟨true, 0, [⟨"A1", true, false, 10⟩]⟩ ["A1"] 0).2
      = ⟨true, 0, [⟨"A1", true, false, 10⟩]⟩ := by
  have h := bus_no_double_booking.1 ⟨true, 0, [⟨"A1", true, false, 10⟩]⟩
    ["A1"] 0 ⟨"A1", true, false, 10⟩ (by decide) (List.Mem.head _)
    (List.Mem.head _) (Or.inl rfl)
  exact ⟨h.1, h.2.2.2⟩

/-- Releasing (the effect of one map step): booking then releasing is the
identity on every row whose number, if requested, was free and unblocked. -/
lemma busRelease_busBook_id (req : List String) (s : BusSeat)
    (hfree : s.seat_number ∈ req → s.is_booked = false ∧ s.is_blocked = false) :
    busReleaseUpdate req (busBookUpdate req s) = s := by
  by_cases hsel : busSeatSelectable req s = true
  · have hsel' := hsel
    simp only [busSeatSelectable, Bool.and_eq_true, Bool.not_eq_true'] at hsel'
    obtain ⟨⟨hcon, hb⟩, _⟩ := hsel'
    unfold busBookUpdate busReleaseUpdate
    rw [if_pos hsel]
    have hcond : (req.contains ({ s with is_booked := true } : BusSeat).seat_number
        && ({ s with is_booked := true } : BusSeat).is_booked) = true := by
      show (req.contains s.seat_number && true) = true
      rw [hcon]
      rfl
    rw [if_pos hcond]
    show ({ s with is_booked := false } : BusSeat) = s
    obtain ⟨n, b, bl, fare⟩ := s
    simp only at hb
    rw [hb]
  · unfold busBookUpdate busReleaseUpdate
    rw [if_neg hsel]
    rcases Bool.eq_false_or_eq_true (req.contains s.seat_number) with hc | hc
    · have hb := (hfree (List.elem_iff.mp hc)).1
      rw [if_neg (by rw [hc, hb]; exact fun hcontra => nomatch hcontra)]
    · rw [if_neg (by rw [hc]; exact fun hcontra => nomatch hcontra)]

/-- C2: booking then cancellation is a round trip on the seat inventory: if
`book_seats` succeeds on a (non-empty) seat-number list, the subsequent
`release_seats` on the same bus and numbers succeeds and returns the
inventory (every `is_booked` flag included) to its pre-booking state. -/
theorem bus_book_then_release_roundtrip :
    ∀ (st : BusInventory) (req : List String) (d : ℤ),
      (st.seats.map BusSeat.seat_number).Nodup → req ≠ [] →
      (book_seats st req d).1.success = true →
      (release_seats (book_seats st req d).2 req).1.1 = true ∧
      (release_seats (book_seats st req d).2 req).2 = st := by
  intro st req d hnd _ hsucc
  have hflags := book_seats_success_flags hnd hsucc
  have hstate := (book_seats_success_state hsucc).1
  refine ⟨rfl, ?_⟩
  rw [hstate]
  show ({ st with seats :=
      (st.seats.map (busBookUpdate req)).map (busReleaseUpdate req) }
    : BusInventory) = st
  have hseq : (st.seats.map (busBookUpdate req)).map (busReleaseUpdate req)
      = st.seats := by
    rw [List.map_map]
    have h1 : ∀ s ∈ st.seats,
        (busReleaseUpdate req ∘ busBookUpdate req) s = id s := by
      intro s hs
      exact busRelease_busBook_id req s (hflags s hs)
    rw [List.map_congr_left h1, List.map_id]
  rw [hseq]

/-- `bus_book_then_release_roundtrip` applied at a one-free-seat bus:
booking "A1" succeeds and releasing it restores the initial inventory. -/
theorem bus_book_then_release_roundtrip_witness :
    (release_seats
        (book_seats ⟨true, 0, [⟨"A1", false, false, 10⟩]⟩ ["A1"] 0).2
        ["A1"]).1.1 = true ∧
    (release_seats
        (book_seats ⟨true, 0, [⟨"A1", false, false, 10⟩]⟩ ["A1"] 0).2
        ["A1"]).2 = ⟨true, 0, [⟨"A1", false, false, 10⟩]⟩ :=
  bus_book_then_release_roundtrip ⟨true, 0, [⟨"A1", false, false, 10⟩]⟩
    ["A1"] 0 (by decide) (by decide) (by decide)

/-- C4: booking failure is atomic: whenever `book_seats` reports failure
(past travel date, unavailable seat, or bus not found) the seat inventory is
returned unchanged, the booked-seat list is empty and the amount is 0. -/
theorem bus_book_failure_atomic :
    ∀ (st : BusInventory) (req : List String) (d : ℤ),
      (book_seats st req d).1.success = false →
      (book_seats st req d).2 = st ∧
      (book_seats st req d).1.booked_seats = [] ∧
      (book_seats st req d).1.total_amount = 0 := by
  intro st req d h
  cases hb : st.busExists
  · unfold book_seats
    rw [hb, if_pos rfl]
    exact ⟨rfl, rfl, rfl⟩
  · by_cases hdt : d < st.today
    · unfold book_seats
      rw [hb, if_neg (by simp), if_pos hdt]
      exact ⟨rfl, rfl, rfl⟩
    · by_cases hun : req.filter (fun n =>
          !(((st.seats.filter (busSeatSelectable req)).map
              BusSeat.seat_number).contains n)) = []
      · have hsucc := (book_seats_success_iff st req d).mpr ⟨hb, hdt, hun⟩
        rw [h] at hsucc
        exact absurd hsucc (by decide)
      · rw [book_seats_main st req d hb hdt, if_pos hun]
        exact ⟨rfl, rfl, rfl⟩

/-- `bus_book_failure_atomic` applied at a missing bus: the failed call
changes nothing and returns an empty booking of amount 0. -/
theorem bus_book_failure_atomic_witness :
    (book_seats ⟨false, 0, [⟨"A1", false, false, 10⟩]⟩ ["A1"] 0).2
      = ⟨false, 0, [⟨"A1", false, false, 10⟩]⟩ ∧
    (book_seats ⟨false, 0, [⟨"A1", false, false, 10⟩]⟩ ["A1"] 0).1.booked_seats
      = [] ∧
    (book_seats ⟨false, 0, [⟨"A1", false, false, 10⟩]⟩ ["A1"] 0).1.total_amount
      = 0 :=
  bus_book_failure_atomic ⟨false, 0, [⟨"A1", false, false, 10⟩]⟩ ["A1"] 0
    (by decide)

/-! ## Hotels: `apps/hotels/models.py` and `apps/hotels/services.py`

`HotelRoom` keeps the room-type inventory counters (`total_rooms`,
`available_rooms` are `PositiveIntegerField`s — the claimed invariant
`0 ≤ available_rooms ≤ total_rooms` is exactly what that column type
enforces, so we model the values in `ℤ` and state the invariant
explicitly); `count`, `rooms` and `guests` are room/guest counts and are
modelled as `ℕ`. -/

structure HotelRoom where
  is_available : Bool
  total_rooms : ℤ
  available_rooms : ℤ
  max_guests : ℤ
  base_price : ℚ
  tax_percentage : ℚ
deriving Repr, DecidableEq

/-- `HotelRoom.reserve_rooms` (models.py lines 291–297). -/
def reserve_rooms (r : HotelRoom) (count : ℕ) : Bool × HotelRoom :=
  if (count : ℤ) ≤ r.available_rooms then
    (true, { r with available_rooms := r.available_rooms - count })
  else
    (false, r)

/-- `HotelRoom.release_rooms` (models.py lines 299–304): increment
`available_rooms` by `count`, then clamp at `total_rooms`. -/
def release_rooms (r : HotelRoom) (count : ℕ) : HotelRoom :=
  { r with available_rooms :=
      if r.total_rooms < r.available_rooms + count then r.total_rooms
      else r.available_rooms + count }

/-- The counter invariant of claim C3: `0 <= available_rooms <= total_rooms`. -/
def roomCounterInvariant (r : HotelRoom) : Prop :=
  0 ≤ r.available_rooms ∧ r.available_rooms ≤ r.total_rooms

instance (r : HotelRoom) : Decidable (roomCounterInvariant r) :=
  inferInstanceAs (Decidable (_ ∧ _))

/-- C3: the counter invariant `0 <= available_rooms <= total_rooms` is
preserved by every inventory operation: `reserve_rooms count` (which
decrements only when enough rooms are available and otherwise returns
`False` leaving the state unchanged) and `release_rooms count` (which
increments and clamps at `total_rooms`) both yield a state satisfying it. -/
theorem hotel_room_counter_invariant_preserved :
    ∀ (r : HotelRoom) (count : ℕ), roomCounterInvariant r →
      roomCounterInvariant (reserve_rooms r count).2 ∧
      ((reserve_rooms r count).1 = false → (reserve_rooms r count).2 = r) ∧
      ((reserve_rooms r count).1 = true →
        (reserve_rooms r count).2.available_rooms
          = r.available_rooms - count) ∧
      roomCounterInvariant (release_rooms r count) := by
  intro r count ⟨h0, ht⟩
  have hc : (0 : ℤ) ≤ (count : ℤ) := Int.natCast_nonneg count
  have hrel : roomCounterInvariant (release_rooms r count) := by
    refine ⟨?_, ?_⟩
    · show (0 : ℤ) ≤
        (if r.total_rooms < r.available_rooms + count then r.total_rooms
         else r.available_rooms + count)
      split_ifs with hcl
      · linarith
      · linarith
    · show (if r.total_rooms < r.available_rooms + count then r.total_rooms
         else r.available_rooms + (count : ℤ)) ≤ r.total_rooms
      split_ifs with hcl
      · exact le_refl _
      · linarith
  by_cases h : (count : ℤ) ≤ r.available_rooms
  · have hres : reserve_rooms r count
        = (true, { r with available_rooms := r.available_rooms - count }) := by
      unfold reserve_rooms
      rw [if_pos h]
    rw [hres]
    refine ⟨⟨?_, ?_⟩, ?_, ?_, hrel⟩
    · show (0 : ℤ) ≤ r.available_rooms - count
      linarith
    · show r.available_rooms - (count : ℤ) ≤ r.total_rooms
      linarith
    · intro hf
      simp at hf
    · intro _
      rfl
  · have hres : reserve_rooms r count = (false, r) := by
      unfold reserve_rooms
      rw [if_neg h]
    rw [hres]
    refine ⟨⟨h0, ht⟩, fun _ => rfl, ?_, hrel⟩
    intro ht'
    simp at ht'

/-- `hotel_room_counter_invariant_preserved` at a concrete room with
5 of 10 rooms available and a request for 3. -/
theorem hotel_room_counter_invariant_preserved_witness :
    roomCounterInvariant
      (reserve_rooms ⟨true, 10, 5, 4, 100, 10⟩ 3).2 ∧
    roomCounterInvariant
      (release_rooms ⟨true, 10, 5, 4, 100, 10⟩ 3) := by
  have h := hotel_room_counter_invariant_preserved
    ⟨true, 10, 5, 4, 100, 10⟩ 3 (by decide)
  exact ⟨h.1, h.2.2.2⟩

/-- `HotelRoom.final_price` (models.py lines 269–273): base price plus tax. -/
def final_price (r : HotelRoom) : ℚ :=
  r.base_price + (r.base_price * r.tax_percentage) / 100

/-- Result of `HotelBookingService.create_booking`: success flag, status of
the created `Booking` row (when one is created), the booking's
`total_amount`, and the error message (the code returns `None` for it on
success). -/
structure HotelBookingResult where
  success : Bool
  status : Option String
  total_amount : ℚ
  error_message : Option String
deriving Repr, DecidableEq

/-- `HotelBookingService.create_booking` (services.py lines 156–242).
`hotelActive` models whether `Hotel.objects.get(id=hotel_id, is_active=True)`
finds the hotel; `roomExists` whether a `HotelRoom` row with the given id
belongs to it (the remaining `get` filters — `is_available=True,
available_rooms__gte=rooms, max_guests__gte=guests` — are checked against
the row `r` itself, raising `DoesNotExist` when unmet). `check_in` and
`check_out` are day numbers, so `(check_out - check_in).days` is their
difference. -/
def hotel_create_booking (hotelActive : Bool) (roomExists : Bool)
    (r : HotelRoom) (check_in check_out : ℤ) (rooms guests : ℕ) :
    HotelBookingResult × HotelRoom :=
  if hotelActive = false then
    (⟨false, none, 0, some "Hotel not found or not active"⟩, r)
  else if roomExists = false then
    (⟨false, none, 0, some "Room not available or insufficient capacity"⟩, r)
  else if r.is_available = true ∧ (rooms : ℤ) ≤ r.available_rooms ∧
      (guests : ℤ) ≤ r.max_guests then
    if check_out - check_in ≤ 0 then
      (⟨false, none, 0, some "Check-out date must be after check-in date"⟩, r)
    else
      (⟨true, some "PENDING",
        final_price r * (rooms : ℚ) * ((check_out - check_in : ℤ) : ℚ),
        none⟩,
       (reserve_rooms r rooms).2)
  else
    (⟨false, none, 0, some "Room not available or insufficient capacity"⟩, r)

/-- C8: `create_booking` succeeds only when the hotel is active, the room
type is available with enough rooms and guest capacity, and check-out is
strictly after check-in; on success the created booking is `PENDING`, its
`total_amount` is `final_price * rooms * nights`, and `available_rooms`
drops by exactly `rooms`; on any failure the room inventory is unchanged. -/
theorem hotel_create_booking_spec :
    ∀ (ha re : Bool) (r : HotelRoom) (ci co : ℤ) (rooms guests : ℕ),
      ((hotel_create_booking ha re r ci co rooms guests).1.success = true →
        ha = true ∧ re = true ∧ r.is_available = true ∧
        (rooms : ℤ) ≤ r.available_rooms ∧ (guests : ℤ) ≤ r.max_guests ∧
        ci < co) ∧
      ((hotel_create_booking ha re r ci co rooms guests).1.success = true →
        (hotel_create_booking ha re r ci co rooms guests).1.status
          = some "PENDING" ∧
        (hotel_create_booking ha re r ci co rooms guests).1.total_amount
          = final_price r * (rooms : ℚ) * ((co - ci : ℤ) : ℚ) ∧
        (hotel_create_booking ha re r ci co rooms guests).2.available_rooms
          = r.available_rooms - rooms) ∧
      ((hotel_create_booking ha re r ci co rooms guests).1.success = false →
        (hotel_create_booking ha re r ci co rooms guests).2 = r) := by
  intro ha re r ci co rooms guests
  unfold hotel_create_booking
  rcases Bool.eq_false_or_eq_true ha with hha | hha
  swap
  · rw [if_pos hha]
    exact ⟨fun h => absurd h Bool.false_ne_true,
           fun h => absurd h Bool.false_ne_true, fun _ => rfl⟩
  · rw [if_neg (by rw [hha]; exact fun hcontra => Bool.false_ne_true hcontra.symm)]
    rcases Bool.eq_false_or_eq_true re with hre | hre
    swap
    · rw [if_pos hre]
      exact ⟨fun h => absurd h Bool.false_ne_true,
             fun h => absurd h Bool.false_ne_true, fun _ => rfl⟩
    · rw [if_neg (by rw [hre]; exact fun hcontra => Bool.false_ne_true hcontra.symm)]
      by_cases h3 : r.is_available = true ∧ (rooms : ℤ) ≤ r.available_rooms ∧
          (guests : ℤ) ≤ r.max_guests
      · rw [if_pos h3]
        by_cases h4 : co - ci ≤ 0
        · rw [if_pos h4]
          exact ⟨fun h => absurd h Bool.false_ne_true,
                 fun h => absurd h Bool.false_ne_true, fun _ => rfl⟩
        · rw [if_neg h4]
          refine ⟨fun _ => ⟨hha, hre, h3.1, h3.2.1, h3.2.2, by omega⟩,
                  fun _ => ⟨rfl, rfl, ?_⟩,
                  fun h => absurd h.symm Bool.false_ne_true⟩
          show (reserve_rooms r rooms).2.available_rooms
            = r.available_rooms - rooms
          unfold reserve_rooms
          rw [if_pos h3.2.1]
      · rw [if_neg h3]
        exact ⟨fun h => absurd h Bool.false_ne_true,
               fun h => absurd h Bool.false_ne_true, fun _ => rfl⟩

/-- `hotel_create_booking_spec` at a concrete successful booking (2 rooms,
2 nights, base price 100 with 10% tax) and at a failing one (inactive
hotel). -/
theorem hotel_create_booking_spec_witness :
    ((hotel_create_booking true true ⟨true, 10, 5, 4, 100, 10⟩ 0 2 2 2).2.available_rooms
      = 3 ∧
     (hotel_create_booking true true ⟨true, 10, 5, 4, 100, 10⟩ 0 2 2 2).1.total_amount
      = 440) ∧
    (hotel_create_booking false true ⟨true, 10, 5, 4, 100, 10⟩ 0 2 2 2).2
      = ⟨true, 10, 5, 4, 100, 10⟩ := by
  have hs := hotel_create_booking_spec true true ⟨true, 10, 5, 4, 100, 10⟩
    0 2 2 2
  have hf := hotel_create_booking_spec false true ⟨true, 10, 5, 4, 100, 10⟩
    0 2 2 2
  refine ⟨⟨?_, ?_⟩, hf.2.2 (by decide)⟩
  · have := (hs.2.1 (by decide)).2.2
    rw [this]
    decide
  · have := (hs.2.1 (by decide)).2.1
    rw [this]
    show final_price ⟨true, 10, 5, 4, 100, 10⟩ * (2 : ℚ) * (2 : ℚ) = 440
    unfold final_price
    norm_num

/-! ## Trains: `apps/trains/seat_manager.py`

`TrainSeatManager.get_available_seats_for_journey` (lines 116–158) checks
availability per journey segment. A `Seat` row of the coach carries
`seat_number`, `is_booked`, `is_blocked`; a `TrainBooking` row carries its
`seats_booked` JSON list, `travel_date`, `status` and the stop sequences of
its `from_station`/`to_station`. -/

structure TrainSeat where
  seat_number : String
  is_booked : Bool
  is_blocked : Bool
deriving Repr, DecidableEq

structure TrainBooking where
  seats_booked : List String
  travel_date : ℤ
  status : String
  from_sequence : ℤ
  to_sequence : ℤ
deriving Repr, DecidableEq

/-- The `overlapping_bookings` queryset filter (lines 137–141):
`seats_booked__contains=[seat], travel_date=travel_date,
status__in=['CONFIRMED', 'RAC', 'PENDING']`. -/
def bookingHoldsSeat (sn : String) (d : ℤ) (b : TrainBooking) : Bool :=
  b.seats_booked.contains sn && b.travel_date == d &&
    (b.status == "CONFIRMED" || b.status == "RAC" || b.status == "PENDING")

/-- The journey-overlap test (lines 146–147):
`booking.from_station.sequence < to_sequence and
booking.to_station.sequence > from_sequence`. -/
def journeysOverlap (b : TrainBooking) (from_seq to_seq : ℤ) : Bool :=
  decide (b.from_sequence < to_seq) && decide (from_seq < b.to_sequence)

/-- `TrainSeatManager.get_available_seats_for_journey` (lines 116–158): keep
each coach seat that is neither booked nor blocked and whose number appears
in no active booking of the same travel date whose segment overlaps the
requested one. -/
def get_available_seats_for_journey (seats : List TrainSeat)
    (bookings : List TrainBooking) (from_seq to_seq : ℤ) (d : ℤ)
    (quota : String) : List String :=
  (seats.filter (fun s =>
    !s.is_booked && !s.is_blocked &&
    !((bookings.filter (bookingHoldsSeat s.seat_number d)).any
        (fun b => journeysOverlap b from_seq to_seq)))).map
    TrainSeat.seat_number

/-- C6: train availability is per journey segment: the returned list holds
exactly the seat numbers of coach seats that are neither booked nor blocked
and are not held by any CONFIRMED/RAC/PENDING booking of the same travel
date whose segment overlaps the requested one (booked from-sequence <
requested to-sequence and booked to-sequence > requested from-sequence);
in particular a seat held only for non-overlapping segments stays
available. -/
theorem train_journey_availability :
    ∀ (seats : List TrainSeat) (bookings : List TrainBooking)
      (from_seq to_seq d : ℤ) (quota : String) (sn : String),
      sn ∈ get_available_seats_for_journey seats bookings from_seq to_seq d
        quota ↔
      ∃ s ∈ seats, s.seat_number = sn ∧ s.is_booked = false ∧
        s.is_blocked = false ∧
        ∀ b ∈ bookings, sn ∈ b.seats_booked → b.travel_date = d →
          (b.status = "CONFIRMED" ∨ b.status = "RAC" ∨ b.status = "PENDING") →
          ¬(b.from_sequence < to_seq ∧ from_seq < b.to_sequence) := by
  intro seats bookings from_seq to_seq d quota sn
  unfold get_available_seats_for_journey
  rw [List.mem_map]
  constructor
  · rintro ⟨s, hsf, hseq⟩
    obtain ⟨hsmem, hsp⟩ := List.mem_filter.mp hsf
    simp only [Bool.and_eq_true, Bool.not_eq_true'] at hsp
    obtain ⟨⟨hbk, hbl⟩, hav⟩ := hsp
    refine ⟨s, hsmem, hseq, hbk, hbl, ?_⟩
    intro b hb hsn hd hst hov
    have hhold : bookingHoldsSeat s.seat_number d b = true := by
      unfold bookingHoldsSeat
      rw [hseq]
      simp only [Bool.and_eq_true, Bool.or_eq_true, beq_iff_eq]
      exact ⟨⟨List.elem_iff.mpr hsn, hd⟩, or_assoc.mpr hst⟩
    have hbf : b ∈ bookings.filter (bookingHoldsSeat s.seat_number d) :=
      List.mem_filter.mpr ⟨hb, hhold⟩
    have hova : journeysOverlap b from_seq to_seq = true := by
      unfold journeysOverlap
      simp only [Bool.and_eq_true, decide_eq_true_eq]
      exact hov
    have := List.any_eq_false.mp (by simpa using hav) b hbf
    exact this hova
  · rintro ⟨s, hsmem, hseq, hbk, hbl, hfree⟩
    refine ⟨s, List.mem_filter.mpr ⟨hsmem, ?_⟩, hseq⟩
    simp only [Bool.and_eq_true, Bool.not_eq_true']
    refine ⟨⟨hbk, hbl⟩, ?_⟩
    have hany : (bookings.filter (bookingHoldsSeat s.seat_number d)).any
        (fun b => journeysOverlap b from_seq to_seq) = false := by
      rw [List.any_eq_false]
      intro b hbf
      obtain ⟨hb, hhold⟩ := List.mem_filter.mp hbf
      unfold bookingHoldsSeat at hhold
      simp only [Bool.and_eq_true, Bool.or_eq_true, beq_iff_eq] at hhold
      obtain ⟨⟨hsn, hd⟩, hst⟩ := hhold
      have hnov := hfree b hb
        (by rw [← hseq]; exact List.elem_iff.mp hsn) hd (or_assoc.mp hst)
      unfold journeysOverlap
      simp only [Bool.and_eq_true, decide_eq_true_eq]
      exact hnov
    rw [hany]

/-- `train_journey_availability` at a concrete coach: seat "S1" is held by a
CONFIRMED booking for segment 5→10 of the same date, and is still reported
available for the non-overlapping segment 1→5. -/
theorem train_journey_availability_witness :
    "S1" ∈ get_available_seats_for_journey [⟨"S1", false, false⟩]
      [⟨["S1"], 0, "CONFIRMED", 5, 10⟩] 1 5 0 "GENERAL" :=
  (train_journey_availability [⟨"S1", false, false⟩]
      [⟨["S1"], 0, "CONFIRMED", 5, 10⟩] 1 5 0 "GENERAL" "S1").mpr
    ⟨⟨"S1", false, false⟩, List.Mem.head _, rfl, rfl, rfl, by decide⟩

/-- `TrainSeatManager.check_rac_or_waitlist` (seat_manager.py lines 247–318).
The counts are the numbers of existing CONFIRMED / RAC / WAITLIST
`TrainBooking` rows for the given train, coach type, segment, date and
quota; the code fixes `coach_capacity = 72`, `rac_limit = 20`,
`waitlist_limit = 50` and computes
`available_confirmed = coach_capacity - confirmed_bookings`. -/
def check_rac_or_waitlist (confirmed rac waitlist num_passengers : ℕ) :
    String × ℤ × String :=
  if (num_passengers : ℤ) ≤ 72 - confirmed then
    ("CONFIRMED", 0, "Seats available for confirmation")
  else if (num_passengers : ℤ) ≤ 72 - confirmed + (20 - rac) then
    ("RAC", (rac : ℤ) + 1, "RAC position " ++ toString ((rac : ℤ) + 1))
  else if (num_passengers : ℤ) ≤ 72 - confirmed + 20 + (50 - waitlist) then
    ("WAITLIST", (waitlist : ℤ) + 1,
      "Waitlist position " ++ toString ((waitlist : ℤ) + 1))
  else
    ("NOT_AVAILABLE", 0, "No seats available")

/-- Whenever the returned status is RAC, the returned position is
`rac_bookings + 1`. -/
lemma check_rac_pos (c r w n : ℕ)
    (h : (check_rac_or_waitlist c r w n).1 = "RAC") :
    (check_rac_or_waitlist c r w n).2.1 = (r : ℤ) + 1 := by
  unfold check_rac_or_waitlist at h ⊢
  split_ifs at h ⊢ with h1 h2 h3
  · simp at h
  · rfl
  · simp at h
  · simp at h

/-- Whenever the returned status is WAITLIST, the returned position is
`waitlist_bookings + 1`. -/
lemma check_waitlist_pos (c r w n : ℕ)
    (h : (check_rac_or_waitlist c r w n).1 = "WAITLIST") :
    (check_rac_or_waitlist c r w n).2.1 = (w : ℤ) + 1 := by
  unfold check_rac_or_waitlist at h ⊢
  split_ifs at h ⊢ with h1 h2 h3
  · simp at h
  · simp at h
  · rfl
  · simp at h

/-- C7: the fixed three-tier order of `check_rac_or_waitlist`: CONFIRMED
while `72 - confirmed >= n`; otherwise RAC at position `rac + 1` when the
shortfall fits in the RAC limit of 20; otherwise WAITLIST at position
`waitlist + 1` when it fits in the waitlist limit of 50; otherwise
NOT_AVAILABLE — and RAC/WAITLIST positions grow strictly with the
existing RAC/WAITLIST counts, so successive requests receive strictly
increasing positions. -/
theorem train_rac_waitlist_tiering :
    ∀ (c r w n : ℕ),
      ((n : ℤ) ≤ 72 - c →
        (check_rac_or_waitlist c r w n).1 = "CONFIRMED" ∧
        (check_rac_or_waitlist c r w n).2.1 = 0) ∧
      (¬((n : ℤ) ≤ 72 - c) → (n : ℤ) ≤ 72 - c + (20 - r) →
        (check_rac_or_waitlist c r w n).1 = "RAC" ∧
        (check_rac_or_waitlist c r w n).2.1 = (r : ℤ) + 1) ∧
      (¬((n : ℤ) ≤ 72 - c) → ¬((n : ℤ) ≤ 72 - c + (20 - r)) →
        (n : ℤ) ≤ 72 - c + 20 + (50 - w) →
        (check_rac_or_waitlist c r w n).1 = "WAITLIST" ∧
        (check_rac_or_waitlist c r w n).2.1 = (w : ℤ) + 1) ∧
      (¬((n : ℤ) ≤ 72 - c) → ¬((n : ℤ) ≤ 72 - c + (20 - r)) →
        ¬((n : ℤ) ≤ 72 - c + 20 + (50 - w)) →
        (check_rac_or_waitlist c r w n).1 = "NOT_AVAILABLE" ∧
        (check_rac_or_waitlist c r w n).2.1 = 0) ∧
      (∀ (c' w' n' r' : ℕ), r < r' →
        (check_rac_or_waitlist c r w n).1 = "RAC" →
        (check_rac_or_waitlist c' r' w' n').1 = "RAC" →
        (check_rac_or_waitlist c r w n).2.1
          < (check_rac_or_waitlist c' r' w' n').2.1) ∧
      (∀ (c' r' n' w' : ℕ), w < w' →
        (check_rac_or_waitlist c r w n).1 = "WAITLIST" →
        (check_rac_or_waitlist c' r' w' n').1 = "WAITLIST" →
        (check_rac_or_waitlist c r w n).2.1
          < (check_rac_or_waitlist c' r' w' n').2.1) := by
  intro c r w n
  refine ⟨?_, ?_, ?_, ?_, ?_, ?_⟩
  · intro h1
    unfold check_rac_or_waitlist
    rw [if_pos h1]
    exact ⟨rfl, rfl⟩
  · intro h1 h2
    unfold check_rac_or_waitlist
    rw [if_neg h1, if_pos h2]
    exact ⟨rfl, rfl⟩
  · intro h1 h2 h3
    unfold check_rac_or_waitlist
    rw [if_neg h1, if_neg h2, if_pos h3]
    exact ⟨rfl, rfl⟩
  · intro h1 h2 h3
    unfold check_rac_or_waitlist
    rw [if_neg h1, if_neg h2, if_neg h3]
    exact ⟨rfl, rfl⟩
  · intro c' w' n' r' hrr hs1 hs2
    rw [check_rac_pos c r w n hs1, check_rac_pos c' r' w' n' hs2]
    omega
  · intro c' r' n' w' hww hs1 hs2
    rw [check_waitlist_pos c r w n hs1, check_waitlist_pos c' r' w' n' hs2]
    omega

/-- `train_rac_waitlist_tiering` at a full coach (72 confirmed bookings, no
RAC yet): a single passenger is put at RAC position 1; with the RAC quota
also full (20), at WAITLIST position 1. -/
theorem train_rac_waitlist_tiering_witness :
    (check_rac_or_waitlist 72 0 0 1).1 = "RAC" ∧
    (check_rac_or_waitlist 72 0 0 1).2.1 = 1 ∧
    (check_rac_or_waitlist 72 20 0 1).1 = "WAITLIST" ∧
    (check_rac_or_waitlist 72 20 0 1).2.1 = 1 := by
  have h1 := (train_rac_waitlist_tiering 72 0 0 1).2.1
    (by decide) (by decide)
  have h2 := (train_rac_waitlist_tiering 72 20 0 1).2.2.1
    (by decide) (by decide) (by decide)
  exact ⟨h1.1, h1.2, h2.1, h2.2⟩

/-! ## Refunds: `apps/bookings/utils.py`, `BookingManager.calculate_refund_amount`

The function reads `booking.check_in_date` / `travel_date` (nullable
`DateField`s) falling back to `booking.booking_date` (lines 148–155, Python
truthiness: a date is always truthy, `None` is falsy), then computes
`hours_before = (relevant_datetime - cancellation_date).total_seconds() / 3600`
and looks the refund up in the static per-service policy table
(lines 166–197). Time points live on a rational timeline measured in hours
(a date stands for its midnight, which is what
`datetime.combine(d, datetime.min.time())` produces). -/

structure Booking where
  service_type : String
  total_amount : ℚ
  check_in_date : Option ℚ
  travel_date : Option ℚ
  booking_date : ℚ
deriving Repr, DecidableEq

/-- Lines 148–155: relevant date selection. -/
def relevantDate (b : Booking) : ℚ :=
  b.check_in_date.getD (b.travel_date.getD b.booking_date)

/-- Lines 166–189: `(free_cancellation_hours, partial_refund_hours)` per
service type; `policies.get(service_type, {})` followed by
`policy.get(key, 0)` makes both thresholds 0 for any other type. -/
def cancellationPolicy (service_type : String) : ℚ × ℚ :=
  if service_type = "HOTEL" then (48, 24)
  else if service_type = "CAR" then (168, 72)
  else if service_type = "BUS" then (4, 0)
  else if service_type = "TRAIN" then (48, 24)
  else (0, 0)

/-- Lines 190–197: full refund at or above the free-cancellation threshold,
50% at or above the partial threshold, otherwise nothing. -/
def refundFromPolicy (service_type : String) (total hours_before : ℚ) : ℚ :=
  if (cancellationPolicy service_type).1 ≤ hours_before then total
  else if (cancellationPolicy service_type).2 ≤ hours_before then
    total * (1 / 2)
  else 0

/-- Models the expression `isinstance(relevant_date, datetime.date)` at
utils.py line 158. The module does `from datetime import datetime`, so
`datetime` names the class `datetime.datetime`, and `datetime.date` is that
class's `date()` method — a method descriptor, not a type. CPython's
`isinstance` then raises
`TypeError: isinstance() arg 2 must be a type, a tuple of types, or a union`
on every call. -/
def isinstanceDatetimeDate : Except String Bool :=
  .error "TypeError: isinstance() arg 2 must be a type"

/-- `BookingManager.calculate_refund_amount` (utils.py lines 139–197),
modelled faithfully: the relevant date is chosen, then line 158 evaluates
`isinstance(relevant_date, datetime.date)`, which raises, so the policy
lookup below it is unreachable. -/
def calculate_refund_amount (b : Booking) (cancellation_date : ℚ) :
    Except String ℚ := do
  let relevant := relevantDate b
  let _ ← isinstanceDatetimeDate
  pure (refundFromPolicy b.service_type b.total_amount
    (relevant - cancellation_date))

/-- `calculate_refund_amount` with line 158 repaired to the evidently
intended test (`datetime.date` the module-level type, so that the relevant
date — always a `datetime.date` here — is combined with midnight and used
as a time point); everything else is identical to the source. -/
def calculate_refund_amount_fixed (b : Booking) (cancellation_date : ℚ) : ℚ :=
  refundFromPolicy b.service_type b.total_amount
    (relevantDate b - cancellation_date)

/-- In every policy row of the table (and in the default) the partial-refund
threshold is at most the free-cancellation threshold. -/
lemma policy_partial_le_free (stype : String) :
    (cancellationPolicy stype).2 ≤ (cancellationPolicy stype).1 := by
  unfold cancellationPolicy
  split_ifs <;> norm_num

lemma refundFromPolicy_cases (stype : String) (total hours : ℚ) :
    ((cancellationPolicy stype).1 ≤ hours →
      refundFromPolicy stype total hours = total) ∧
    ((cancellationPolicy stype).2 ≤ hours ∧
        hours < (cancellationPolicy stype).1 →
      refundFromPolicy stype total hours = total * (1 / 2)) ∧
    (hours < (cancellationPolicy stype).2 →
      refundFromPolicy stype total hours = 0) := by
  have hfp := policy_partial_le_free stype
  unfold refundFromPolicy
  refine ⟨?_, ?_, ?_⟩
  · intro h
    rw [if_pos h]
  · intro ⟨h2, h1⟩
    rw [if_neg (not_le.mpr h1), if_pos h2]
  · intro h
    rw [if_neg (not_le.mpr (lt_of_lt_of_le h hfp)), if_neg (not_le.mpr h)]

/-- C5 (code bug at utils.py line 158): as written,
`calculate_refund_amount` raises `TypeError` on every booking and every
cancellation time, so the refund table is never consulted; once line 158 is
repaired to a real type test, the claimed static lookup — full refund at or
above `free_cancellation_hours` (48/168/4/48 for HOTEL/CAR/BUS/TRAIN), 50%
at or above `partial_refund_hours` (24/72/0/24), else nothing — holds. -/
theorem refund_lookup_code_bug :
    (∀ (b : Booking) (t : ℚ),
      calculate_refund_amount b t
        = .error "TypeError: isinstance() arg 2 must be a type") ∧
    (∀ (b : Booking) (t : ℚ),
      b.service_type = "HOTEL" ∨ b.service_type = "CAR" ∨
        b.service_type = "BUS" ∨ b.service_type = "TRAIN" →
      ((cancellationPolicy b.service_type).1 ≤ relevantDate b - t →
        calculate_refund_amount_fixed b t = b.total_amount) ∧
      ((cancellationPolicy b.service_type).2 ≤ relevantDate b - t ∧
          relevantDate b - t < (cancellationPolicy b.service_type).1 →
        calculate_refund_amount_fixed b t = b.total_amount * (1 / 2)) ∧
      (relevantDate b - t < (cancellationPolicy b.service_type).2 →
        calculate_refund_amount_fixed b t = 0)) := by
  constructor
  · intro b t
    rfl
  · intro b t _
    exact refundFromPolicy_cases b.service_type b.total_amount
      (relevantDate b - t)

/-- `refund_lookup_code_bug` at a concrete failing input: a HOTEL booking of
total 100 with check-in at hour 48, cancelled at hour 0 (48 hours before
check-in, which the claim says is a full refund): the code as written
raises `TypeError`; the repaired lookup returns the full 100. -/
theorem refund_lookup_code_bug_witness :
    calculate_refund_amount ⟨"HOTEL", 100, some 48, none, 0⟩ 0
      = .error "TypeError: isinstance() arg 2 must be a type" ∧
    calculate_refund_amount_fixed ⟨"HOTEL", 100, some 48, none, 0⟩ 0
      = 100 := by
  constructor
  · exact refund_lookup_code_bug.1 ⟨"HOTEL", 100, some 48, none, 0⟩ 0
  · exact (refund_lookup_code_bug.2 ⟨"HOTEL", 100, some 48, none, 0⟩ 0
      (Or.inl rfl)).1 (by norm_num [relevantDate, cancellationPolicy])

/-- Monotonicity and bounds of the (repaired) policy lookup in the
hours-before argument. -/
lemma refundFromPolicy_monotone (stype : String) (total : ℚ)
    (h0 : 0 ≤ total) {h₂ h₁ : ℚ} (hh : h₂ ≤ h₁) :
    refundFromPolicy stype total h₂ ≤ refundFromPolicy stype total h₁ ∧
    0 ≤ refundFromPolicy stype total h₁ ∧
    refundFromPolicy stype total h₁ ≤ total := by
  refine ⟨?_, ?_, ?_⟩ <;> unfold refundFromPolicy <;> split_ifs <;> linarith

/-- C9 (code bug at utils.py line 158): the implicit monotonicity claim is
about values `calculate_refund_amount` never returns — as written it raises
`TypeError` on every input; for the repaired function the claim holds:
cancelling earlier never yields a smaller refund, and every refund lies
between 0 and `total_amount`. -/
theorem refund_monotone_code_bug :
    (∀ (b : Booking) (t : ℚ), ∃ msg,
      calculate_refund_amount b t = .error msg) ∧
    (∀ (b : Booking) (t₁ t₂ : ℚ), t₁ ≤ t₂ → 0 ≤ b.total_amount →
      calculate_refund_amount_fixed b t₂ ≤ calculate_refund_amount_fixed b t₁ ∧
      0 ≤ calculate_refund_amount_fixed b t₁ ∧
      calculate_refund_amount_fixed b t₁ ≤ b.total_amount) := by
  constructor
  · intro b t
    exact ⟨"TypeError: isinstance() arg 2 must be a type", rfl⟩
  · intro b t₁ t₂ ht h0
    have hh : relevantDate b - t₂ ≤ relevantDate b - t₁ := by linarith
    exact refundFromPolicy_monotone b.service_type b.total_amount h0 hh

/-- `refund_monotone_code_bug` at a concrete input: a TRAIN booking of total
80 travelling at hour 100; cancelling at hour 0 refunds at least as much as
cancelling at hour 90, and the earlier refund is the full 80 (within
bounds). -/
theorem refund_monotone_code_bug_witness :
    calculate_refund_amount_fixed ⟨"TRAIN", 80, none, some 100, 0⟩ 90
      ≤ calculate_refund_amount_fixed ⟨"TRAIN", 80, none, some 100, 0⟩ 0 ∧
    0 ≤ calculate_refund_amount_fixed ⟨"TRAIN", 80, none, some 100, 0⟩ 0 ∧
    calculate_refund_amount_fixed ⟨"TRAIN", 80, none, some 100, 0⟩ 0 ≤ 80 :=
  refund_monotone_code_bug.2 ⟨"TRAIN", 80, none, some 100, 0⟩ 0 90
    (by norm_num) (by norm_num)

/-! ## Wallet: `apps/payments/models.py`, `Wallet.credit` / `Wallet.debit`
(lines 508–553)

`balance` is a `Decimal` column; `credit`/`debit` raise `ValueError` on
non-positive amounts (and on insufficient balance for `debit`) before
touching the balance, and on success update the balance and create exactly
one `WalletTransaction` row whose `balance_after` is the new balance. -/

structure WalletTxn where
  amount : ℚ
  transaction_type : String
  balance_after : ℚ
deriving Repr, DecidableEq

structure Wallet where
  balance : ℚ
  transactions : List WalletTxn
deriving Repr, DecidableEq

/-- `Wallet.credit` (lines 508–526). -/
def Wallet.credit (w : Wallet) (amount : ℚ) : Except String Wallet :=
  if amount ≤ 0 then .error "Credit amount must be positive"
  else .ok { balance := w.balance + amount,
             transactions := w.transactions
               ++ [⟨amount, "CREDIT", w.balance + amount⟩] }

/-- `Wallet.debit` (lines 528–549). -/
def Wallet.debit (w : Wallet) (amount : ℚ) : Except String Wallet :=
  if amount ≤ 0 then .error "Debit amount must be positive"
  else if w.balance < amount then .error "Insufficient wallet balance"
  else .ok { balance := w.balance - amount,
             transactions := w.transactions
               ++ [⟨amount, "DEBIT", w.balance - amount⟩] }

/-- `Wallet.can_pay` (lines 551–553). -/
def Wallet.can_pay (w : Wallet) (amount : ℚ) : Bool :=
  amount ≤ w.balance

inductive WalletOp where
  | credit (amount : ℚ)
  | debit (amount : ℚ)
deriving Repr, DecidableEq

/-- One wallet call as the caller observes the object afterwards: a raised
`ValueError` leaves the wallet unchanged. -/
def applyWalletOp (w : Wallet) : WalletOp → Wallet
  | .credit a =>
      match w.credit a with
      | .ok w' => w'
      | .error _ => w
  | .debit a =>
      match w.debit a with
      | .ok w' => w'
      | .error _ => w

/-- A sequence of credit/debit calls. -/
def runWalletOps (w : Wallet) (ops : List WalletOp) : Wallet :=
  ops.foldl applyWalletOp w

lemma applyWalletOp_nonneg (w : Wallet) (op : WalletOp)
    (h0 : 0 ≤ w.balance) : 0 ≤ (applyWalletOp w op).balance := by
  cases op with
  | credit a =>
    cases hc : w.credit a with
    | error msg =>
      have heq : applyWalletOp w (.credit a) = w := by
        simp only [applyWalletOp, hc]
      rw [heq]
      exact h0
    | ok w' =>
      have heq : applyWalletOp w (.credit a) = w' := by
        simp only [applyWalletOp, hc]
      rw [heq]
      unfold Wallet.credit at hc
      split_ifs at hc with hle
      injection hc with hw
      rw [← hw]
      show 0 ≤ w.balance + a
      have := not_le.mp hle
      linarith
  | debit a =>
    cases hc : w.debit a with
    | error msg =>
      have heq : applyWalletOp w (.debit a) = w := by
        simp only [applyWalletOp, hc]
      rw [heq]
      exact h0
    | ok w' =>
      have heq : applyWalletOp w (.debit a) = w' := by
        simp only [applyWalletOp, hc]
      rw [heq]
      unfold Wallet.debit at hc
      split_ifs at hc with hle hlt
      injection hc with hw
      rw [← hw]
      show 0 ≤ w.balance - a
      have := not_lt.mp hlt
      linarith

lemma runWalletOps_nonneg (ops : List WalletOp) :
    ∀ w : Wallet, 0 ≤ w.balance → 0 ≤ (runWalletOps w ops).balance := by
  induction ops with
  | nil => exact fun w h => h
  | cons op rest ih =>
    intro w h
    exact ih (applyWalletOp w op) (applyWalletOp_nonneg w op h)

/-- C10: `credit` raises `ValueError` for every amount ≤ 0; `debit` raises
for every amount ≤ 0 and for every amount above the balance (the wallet is
unchanged in each error case — `applyWalletOp` returns it as-is); every
sequence of credit/debit calls starting from a non-negative balance keeps
the balance non-negative; and each successful call appends exactly one
`WalletTransaction` whose `balance_after` equals the wallet's new
balance. -/
theorem wallet_balance_invariant :
    (∀ (w : Wallet) (a : ℚ), a ≤ 0 →
      w.credit a = .error "Credit amount must be positive") ∧
    (∀ (w : Wallet) (a : ℚ), a ≤ 0 →
      w.debit a = .error "Debit amount must be positive") ∧
    (∀ (w : Wallet) (a : ℚ), ¬(a ≤ 0) → w.balance < a →
      w.debit a = .error "Insufficient wallet balance") ∧
    (∀ (w : Wallet) (a : ℚ) (w' : Wallet), w.credit a = .ok w' →
      w'.balance = w.balance + a ∧
      w'.transactions = w.transactions ++ [⟨a, "CREDIT", w'.balance⟩]) ∧
    (∀ (w : Wallet) (a : ℚ) (w' : Wallet), w.debit a = .ok w' →
      w'.balance = w.balance - a ∧
      w'.transactions = w.transactions ++ [⟨a, "DEBIT", w'.balance⟩]) ∧
    (∀ (ops : List WalletOp) (w : Wallet), 0 ≤ w.balance →
      0 ≤ (runWalletOps w ops).balance) := by
  refine ⟨?_, ?_, ?_, ?_, ?_, fun ops w h => runWalletOps_nonneg ops w h⟩
  · intro w a h
    unfold Wallet.credit
    rw [if_pos h]
  · intro w a h
    unfold Wallet.debit
    rw [if_pos h]
  · intro w a h1 h2
    unfold Wallet.debit
    rw [if_neg h1, if_pos h2]
  · intro w a w' h
    unfold Wallet.credit at h
    split_ifs at h
    cases h
    exact ⟨rfl, rfl⟩
  · intro w a w' h
    unfold Wallet.debit at h
    split_ifs at h
    cases h
    exact ⟨rfl, rfl⟩

/-- `wallet_balance_invariant` at concrete calls: crediting −5 errors,
debiting 7 from a balance of 5 errors, and the sequence
credit 3, debit 7 from balance 5 ends at the non-negative balance 1. -/
theorem wallet_balance_invariant_witness :
    Wallet.credit ⟨5, []⟩ (-5) = .error "Credit amount must be positive" ∧
    Wallet.debit ⟨5, []⟩ 7 = .error "Insufficient wallet balance" ∧
    0 ≤ (runWalletOps ⟨5, []⟩ [.credit 3, .debit 7]).balance := by
  refine ⟨wallet_balance_invariant.1 ⟨5, []⟩ (-5) (by norm_num),
          wallet_balance_invariant.2.2.1 ⟨5, []⟩ 7 (by norm_num) (by norm_num),
          wallet_balance_invariant.2.2.2.2.2 [.credit 3, .debit 7] ⟨5, []⟩
            (by norm_num)⟩

end TravelBooking
